import Mathlib

/-!
Verification of the fitness-tracking backend (health/food/feed services).

This file gives a shallow embedding, in Lean, of the service and controller
logic of the repository: daily health aggregates with meal bookkeeping, the
fasting-session state machine, the basket-to-meal conversion, catalog search
with scrape-on-miss, basket CRUD, and feed likes.  Numeric values that the
code manipulates as JS numbers are modelled as rationals; integer database
columns are modelled as integers.  Timestamps are modelled as milliseconds
since the epoch (rationals), matching `Date.getTime()` arithmetic in the
source.  JavaScript truthiness (`x || d`, `if (x)`) is translated explicitly
wherever it matters: `0`, `null`/`undefined` and the empty string are falsy.
-/

namespace Fitness

/-- Models `Math.round`: round half toward positive infinity. -/
def jsRound (q : ℚ) : ℤ := ⌊q + 1/2⌋

/-- Models `(now.getTime() - startTime.getTime()) / (1000 * 60 * 60)`:
milliseconds between two instants converted to hours. -/
def elapsedHours (now startTime : ℚ) : ℚ := (now - startTime) / (1000 * 60 * 60)

/-- JS `x || d` for an optional number: `undefined` and `0` are falsy. -/
def jsOrQ (x : Option ℚ) (d : ℚ) : ℚ :=
  match x with
  | none => d
  | some v => if v = 0 then d else v

/-- JS `x || d` for an optional integer (query parameters parsed by
`parseInt`): `undefined` and `0` are falsy. -/
def jsOrZ (x : Option ℤ) (d : ℤ) : ℤ :=
  match x with
  | none => d
  | some v => if v = 0 then d else v

/-- JS truthiness of an optional number (`if (x)`): present and nonzero. -/
def truthyQ (x : Option ℚ) : Bool :=
  match x with
  | none => false
  | some v => v ≠ 0

/-- JS truthiness of an optional integer. -/
def truthyZ (x : Option ℤ) : Bool :=
  match x with
  | none => false
  | some v => v ≠ 0

/-- JS `x || d` for an optional string: `undefined` and `""` are falsy. -/
def jsOrS (x : Option String) (d : String) : String :=
  match x with
  | none => d
  | some s => if s = "" then d else s

end Fitness

namespace Fitness.Meals

/-!
### Meal bookkeeping on a daily aggregate
`health.service.ts`: `addMeal`, `updateMeal`, `deleteMeal`.  Payload columns
that no claim observes (type, name, carbs, protein, fat, timestamp) are
elided from the `Meal` row; `calories` is the column whose bookkeeping the
claims are about.
-/

/-- A `Meal` row (id plus the calories column). -/
structure Meal where
  id : ℕ
  calories : ℚ
  deriving DecidableEq, Repr

/-- The parent daily aggregate restricted to the meal side:
`caloriesConsumed` plus the owned `meals` collection. -/
structure MealAgg where
  caloriesConsumed : ℚ
  meals : List Meal
  deriving DecidableEq, Repr

/-- Sum of the calories of the remaining meal rows. -/
def mealsCalories (s : MealAgg) : ℚ := (s.meals.map Meal.calories).sum

/-- Source `addMeal`: create the meal row, then increment `caloriesConsumed`
by the meal's calories (`increment: mealData.calories`). -/
def addMeal (s : MealAgg) (id : ℕ) (calories : ℚ) : MealAgg :=
  { caloriesConsumed := s.caloriesConsumed + calories
  , meals := s.meals ++ [{ id := id, calories := calories }] }

/-- Source `updateMeal`: look the meal up (404 when absent); compute
`newCalories = mealData.calories || oldCalories` (JS `||`, so a supplied `0`
falls back to `oldCalories`); write `calories: mealData.calories` to the row
(Prisma skips the column when the value is `undefined` but writes `0`);
adjust the aggregate by `- oldCalories + newCalories` only when
`oldCalories !== newCalories`. -/
def updateMeal (s : MealAgg) (mealId : ℕ) (calories? : Option ℚ) :
    Except String MealAgg :=
  match s.meals.find? (fun m => m.id = mealId) with
  | none => .error "Meal not found"
  | some meal =>
    let oldCalories := meal.calories
    let newCalories := jsOrQ calories? oldCalories
    let meals := s.meals.map fun m =>
      if m.id = mealId then { m with calories := calories?.getD m.calories } else m
    let consumed :=
      if oldCalories ≠ newCalories then
        s.caloriesConsumed - oldCalories + newCalories
      else s.caloriesConsumed
    .ok { caloriesConsumed := consumed, meals := meals }

/-- Source `deleteMeal`: look the meal up (404 when absent); delete the row;
set `caloriesConsumed` to `Math.max(0, consumed - meal.calories)`. -/
def deleteMeal (s : MealAgg) (mealId : ℕ) : Except String MealAgg :=
  match s.meals.find? (fun m => m.id = mealId) with
  | none => .error "Meal not found"
  | some meal =>
    .ok { caloriesConsumed := max 0 (s.caloriesConsumed - meal.calories)
        , meals := s.meals.filter (fun m => m.id ≠ mealId) }

/-- One meal operation of the claim's sequences. -/
inductive MealOp where
  | add (id : ℕ) (calories : ℚ)
  | update (id : ℕ) (calories? : Option ℚ)
  | del (id : ℕ)
  deriving DecidableEq, Repr

/-- Apply one operation; a thrown `Meal not found` happens before any write,
so the aggregate is left unchanged on failure. -/
def applyMealOp (s : MealAgg) : MealOp → MealAgg
  | .add id c => addMeal s id c
  | .update id c? => (updateMeal s id c?).toOption.getD s
  | .del id => (deleteMeal s id).toOption.getD s

/-- Run a sequence of meal operations from a given aggregate. -/
def runMealOps (s : MealAgg) (ops : List MealOp) : MealAgg :=
  ops.foldl applyMealOp s

/-- The zeroed aggregate the claim starts from. -/
def zeroAgg : MealAgg := { caloriesConsumed := 0, meals := [] }

end Fitness.Meals

namespace Fitness.Meals

/-- C1: the claimed invariant — after each addMeal/updateMeal/deleteMeal
operation on an initially zeroed aggregate, `caloriesConsumed` equals the sum
of the remaining meals' calories — is broken by the code at a concrete
sequence: add a 100-calorie meal, then update it with `calories = 0`.  The
update writes `0` to the meal row, but `newCalories = mealData.calories ||
oldCalories` treats the supplied `0` as absent, so the aggregate total is not
adjusted: `caloriesConsumed` stays `100` while the meals now sum to `0`. -/
theorem c1_zero_calorie_update_breaks_invariant :
    (runMealOps zeroAgg [ .add 1 100, .update 1 (some 0) ]).caloriesConsumed = 100 ∧
    mealsCalories (runMealOps zeroAgg [ .add 1 100, .update 1 (some 0) ]) = 0 := by
  constructor <;>
    simp [runMealOps, applyMealOp, updateMeal, addMeal, zeroAgg, jsOrQ, mealsCalories,
      List.find?, Except.toOption]

end Fitness.Meals

namespace Fitness.Health

/-!
### Daily health data and the fasting-session state machine
`health.service.ts`: `getDailyHealthData`, `getWeeklyHealthData`,
`startFastingSession`, `saveFastingSession`.  The owned meal/water/workout
collections are not observed by claims C2–C4 and are elided from this record
(meal bookkeeping is modelled separately above).
-/

/-- A `FastingSession` row.  `endTime = none` means Active; `duration` and
`targetDuration` are integer-hour columns. -/
structure FastingSession where
  type : String
  startTime : ℚ
  endTime : Option ℚ
  duration : ℤ
  targetDuration : Option ℤ
  eatingWindowStart : Option ℚ
  eatingWindowEnd : Option ℚ
  deriving DecidableEq, Repr

/-- A `DailyHealthData` row with its (at most one) fasting session. -/
structure DailyHealthData where
  caloriesConsumed : ℚ
  caloriesBurned : ℚ
  steps : ℚ
  waterIntake : ℚ
  fastingSession : Option FastingSession
  deriving DecidableEq, Repr

/-- The zeroed aggregate created when none exists for (userId, date). -/
def zeroDaily : DailyHealthData :=
  { caloriesConsumed := 0, caloriesBurned := 0, steps := 0, waterIntake := 0
  , fastingSession := none }

/-- The read-path check `!fs.endTime && fs.targetDuration` followed by
`elapsedHours >= fs.targetDuration` (JS truthiness: a stored target of `0`
is falsy and disables the check). -/
def needsAutoComplete (now : ℚ) (fs : FastingSession) : Bool :=
  match fs.endTime, fs.targetDuration with
  | none, some t => t ≠ 0 && (t : ℚ) ≤ elapsedHours now fs.startTime
  | _, _ => false

/-- The auto-completion write: `endTime = now`, `duration` capped at the
target.  (Only ever applied under `needsAutoComplete`, which guarantees the
target is present.) -/
def completeSession (now : ℚ) (fs : FastingSession) : FastingSession :=
  match fs.targetDuration with
  | some t => { fs with endTime := some now, duration := t }
  | none => fs

/-- Auto-complete the fasting session of one aggregate if it is Active and
past its target. -/
def autoCompleteDaily (now : ℚ) (d : DailyHealthData) : DailyHealthData :=
  match d.fastingSession with
  | some fs =>
    if needsAutoComplete now fs then { d with fastingSession := some (completeSession now fs) }
    else d
  | none => d

/-- Source `getDailyHealthData`: fetch the aggregate; if its Active session has
reached its target, persist the completion and return the refreshed row. -/
def getDailyHealthData (now : ℚ) (db : Option DailyHealthData) : Option DailyHealthData :=
  db.map (autoCompleteDaily now)

/-- Source `getWeeklyHealthData`: fetch the rows of the 7-day range; auto-complete
every expired Active session; if any was updated, return the refetched
rows. -/
def getWeeklyHealthData (now : ℚ) (ds : List DailyHealthData) : List DailyHealthData :=
  if ds.any (fun d => match d.fastingSession with
                      | some fs => needsAutoComplete now fs
                      | none => false) then
    ds.map (autoCompleteDaily now)
  else ds

end Fitness.Health

namespace Fitness

/-- JS truthiness of an optional string: present and nonempty. -/
def truthyS (x : Option String) : Bool :=
  match x with
  | none => false
  | some s => s ≠ ""

end Fitness

namespace Fitness.Health

/-- C2 (amended: the stored target must be nonzero, since a stored target of
`0` is JS-falsy and disables the check): for every aggregate holding an
Active fasting session whose targetDuration is set and nonzero, once elapsed
wall-clock time reaches the target, `getDailyHealthData` returns the session
Completed — `endTime = now` and `duration` capped at the target rather than
the larger raw elapsed value — and `getWeeklyHealthData` returns the
aggregate likewise completed in any week range containing it. -/
theorem c2_read_path_auto_completion (now : ℚ) (d : DailyHealthData)
    (fs : FastingSession) (t : ℤ)
    (hfs : d.fastingSession = some fs) (hact : fs.endTime = none)
    (htgt : fs.targetDuration = some t) (ht : t ≠ 0)
    (helapsed : (t : ℚ) ≤ elapsedHours now fs.startTime) :
    getDailyHealthData now (some d) =
      some { d with fastingSession := some { fs with endTime := some now, duration := t } } ∧
    ∀ ds : List DailyHealthData, d ∈ ds →
      ({ d with fastingSession := some { fs with endTime := some now, duration := t } })
        ∈ getWeeklyHealthData now ds := by
  have hneed : needsAutoComplete now fs = true := by
    simp [needsAutoComplete, hact, htgt, ht, helapsed]
  have hcomp : autoCompleteDaily now d =
      { d with fastingSession := some { fs with endTime := some now, duration := t } } := by
    simp [autoCompleteDaily, hfs, hneed, completeSession, htgt]
  refine ⟨by simp [getDailyHealthData, hcomp], ?_⟩
  intro ds hd
  have hany : (ds.any (fun d => match d.fastingSession with
      | some fs => needsAutoComplete now fs
      | none => false)) = true :=
    List.any_eq_true.mpr ⟨d, hd, by simp [hfs, hneed]⟩
  rw [getWeeklyHealthData, if_pos hany, ← hcomp]
  exact List.mem_map_of_mem _ hd

/-- The concrete session of the C2 witness: Active, target 8 h, started at
epoch 0. -/
def c2fs : FastingSession :=
  { type := "16:8", startTime := 0, endTime := none, duration := 0
  , targetDuration := some 8, eatingWindowStart := none, eatingWindowEnd := none }

/-- The concrete aggregate of the C2 witness. -/
def c2d : DailyHealthData := { zeroDaily with fastingSession := some c2fs }

/-- C2 witness: reading 9 hours after the start of an 8-hour-target session
returns it Completed with duration 8 (capped), not 9 — on the daily read and
on a week range containing the aggregate. -/
theorem c2_witness :
    getDailyHealthData 32400000 (some c2d) =
      some { c2d with
             fastingSession := some { c2fs with endTime := some 32400000, duration := 8 } } ∧
    ({ c2d with fastingSession := some { c2fs with endTime := some 32400000, duration := 8 } })
      ∈ getWeeklyHealthData 32400000 [c2d] := by
  have h := c2_read_path_auto_completion 32400000 c2d c2fs 8 rfl rfl rfl
    (by norm_num) (by norm_num [elapsedHours, c2fs])
  exact ⟨h.1, h.2 [c2d] (by simp)⟩

/-- The C2 counterexample session: Active with a stored targetDuration of 0
(reachable in the code: `startFastingSession` stores
`Math.round(targetDuration)` for any truthy input, so e.g. 0.3 is stored
as 0). -/
def c2fs0 : FastingSession :=
  { type := "16:8", startTime := 0, endTime := none, duration := 0
  , targetDuration := some 0, eatingWindowStart := none, eatingWindowEnd := none }

/-- The C2 counterexample aggregate. -/
def c2d0 : DailyHealthData := { zeroDaily with fastingSession := some c2fs0 }

/-- C2 counterexample: an Active session with the set target 0 has elapsed
time (1 h) ≥ its targetDuration, yet `getDailyHealthData` returns it
unchanged and still Active (`endTime = none`), because a stored target of 0
is JS-falsy — contradicting the claim that any such read returns the session
Completed with endTime set. -/
theorem c2_counterexample :
    c2d0.fastingSession = some c2fs0 ∧ c2fs0.endTime = none ∧
    c2fs0.targetDuration = some 0 ∧
    ((0 : ℤ) : ℚ) ≤ elapsedHours 3600000 c2fs0.startTime ∧
    getDailyHealthData 3600000 (some c2d0) = some c2d0 := by
  refine ⟨rfl, rfl, rfl, by norm_num [elapsedHours, c2fs0], ?_⟩
  simp [getDailyHealthData, autoCompleteDaily, c2d0, c2fs0, needsAutoComplete, zeroDaily]

/-- The session row `startFastingSession` creates: `startTime = now`,
`endTime = null`, `duration = 0`, and
`targetDuration ? Math.round(targetDuration) : null`. -/
def newSession (now : ℚ) (type : String)
    (targetDuration? eatingWindowStart? eatingWindowEnd? : Option ℚ) : FastingSession :=
  { type := type, startTime := now, endTime := none, duration := 0
  , targetDuration :=
      if truthyQ targetDuration? then some (jsRound (targetDuration?.getD 0)) else none
  , eatingWindowStart := eatingWindowStart?, eatingWindowEnd := eatingWindowEnd? }

/-- Source `startFastingSession`: read (and possibly auto-complete) the aggregate,
create it zeroed if absent; reject with the conflict error if the (refreshed)
session is Active; otherwise create the session row.  `fastingSession` is a
one-to-one relation of `dailyHealthData` (the source upserts it by the unique
`dailyHealthDataId`), so when a Completed session row already exists the
`create` violates that unique constraint and the caught store error is
rethrown wrapped in `Failed to start fasting session: ...`. -/
def startFastingSession (now : ℚ) (db : Option DailyHealthData) (type : String)
    (targetDuration? eatingWindowStart? eatingWindowEnd? : Option ℚ) :
    Except String (FastingSession × DailyHealthData) :=
  let dailyData := (getDailyHealthData now db).getD zeroDaily
  match dailyData.fastingSession with
  | some fs =>
    if fs.endTime = none then
      .error "An active fasting session already exists. Please end the current session before starting a new one."
    else
      .error "Failed to start fasting session: unique constraint violated on dailyHealthDataId"
  | none =>
    let fs := newSession now type targetDuration? eatingWindowStart? eatingWindowEnd?
    .ok (fs, { dailyData with fastingSession := some fs })

end Fitness.Health


namespace Fitness.Health

/-- C4 (amended): `startFastingSession` fails with the Conflict error exactly
when the read-back session is still Active (an Active session that has
already reached a nonzero target is auto-completed by the internal read
first); when a session row exists Completed — whether stored as such or
auto-completed on this read — the `create` is rejected by the one-to-one
uniqueness of `dailyHealthDataId` and the call fails with the wrapped store
error rather than succeeding; only when no session row exists does the call
succeed, creating a session with `startTime = now`, `endTime = null`,
`duration = 0`. -/
theorem c4_start_session_preconditions (now : ℚ) (db : Option DailyHealthData)
    (type : String) (tgt? ews? ewe? : Option ℚ) :
    (∀ d fs, db = some d → d.fastingSession = some fs → fs.endTime = none →
       needsAutoComplete now fs = false →
       startFastingSession now db type tgt? ews? ewe? =
         .error "An active fasting session already exists. Please end the current session before starting a new one.") ∧
    (∀ d fs, db = some d → d.fastingSession = some fs →
       (fs.endTime ≠ none ∨ needsAutoComplete now fs = true) →
       startFastingSession now db type tgt? ews? ewe? =
         .error "Failed to start fasting session: unique constraint violated on dailyHealthDataId") ∧
    ((db = none ∨ ∃ d, db = some d ∧ d.fastingSession = none) →
       ∃ daily, startFastingSession now db type tgt? ews? ewe? =
         .ok (newSession now type tgt? ews? ewe?, daily) ∧
         (newSession now type tgt? ews? ewe?).startTime = now ∧
         (newSession now type tgt? ews? ewe?).endTime = none ∧
         (newSession now type tgt? ews? ewe?).duration = 0) := by
  refine ⟨?_, ?_, ?_⟩
  · intro d fs hdb hfs hact hneed
    subst hdb
    simp [startFastingSession, getDailyHealthData, autoCompleteDaily, hfs, hneed, hact]
  · intro d fs hdb hfs hcase
    subst hdb
    rcases hcase with hend | hneed
    · have hneed : needsAutoComplete now fs = false := by
        rcases h : fs.endTime with _ | et
        · exact absurd h hend
        · simp [needsAutoComplete, h]
      simp [startFastingSession, getDailyHealthData, autoCompleteDaily, hfs, hneed, hend]
    · rcases h : fs.targetDuration with _ | t
      · exfalso
        rcases he : fs.endTime with _ | et <;>
          simp [needsAutoComplete, h, he] at hneed
      · simp [startFastingSession, getDailyHealthData, autoCompleteDaily, hfs, hneed,
          completeSession, h]
  · intro hnone
    rcases hnone with rfl | ⟨d, rfl, hfs⟩
    · refine ⟨{ zeroDaily with fastingSession := some (newSession now type tgt? ews? ewe?) },
        ?_, rfl, rfl, rfl⟩
      simp [startFastingSession, getDailyHealthData, zeroDaily]
    · refine ⟨{ d with fastingSession := some (newSession now type tgt? ews? ewe?) },
        ?_, rfl, rfl, rfl⟩
      simp [startFastingSession, getDailyHealthData, autoCompleteDaily, hfs]

/-- The C4 witness session: Active, no target (so the read path cannot
auto-complete it). -/
def c4fsActive : FastingSession :=
  { type := "16:8", startTime := 0, endTime := none, duration := 0
  , targetDuration := none, eatingWindowStart := none, eatingWindowEnd := none }

/-- The C4 witness aggregate. -/
def c4dActive : DailyHealthData := { zeroDaily with fastingSession := some c4fsActive }

/-- C4 witness: starting while an Active session exists fails with the
Conflict error, and starting with no session row at all succeeds with
`startTime = now`, `endTime = null`, `duration = 0`. -/
theorem c4_witness :
    startFastingSession 1000 (some c4dActive) "16:8" none none none =
      .error "An active fasting session already exists. Please end the current session before starting a new one." ∧
    startFastingSession 1000 none "16:8" none none none =
      .ok (newSession 1000 "16:8" none none none,
           { zeroDaily with fastingSession := some (newSession 1000 "16:8" none none none) }) := by
  constructor
  · exact (c4_start_session_preconditions 1000 (some c4dActive) "16:8" none none none).1
      c4dActive c4fsActive rfl rfl rfl (by simp [needsAutoComplete, c4fsActive])
  · obtain ⟨daily, hd, -, -, -⟩ :=
      (c4_start_session_preconditions 1000 none "16:8" none none none).2.2 (Or.inl rfl)
    have hdaily : daily = { zeroDaily with fastingSession := some (newSession 1000 "16:8" none none none) } := by
      have h2 := hd
      simp [startFastingSession, getDailyHealthData, zeroDaily] at h2
      exact h2.symm
    rw [hd, hdaily]

/-- The C4 counterexample session: Completed (`endTime` set). -/
def c4fsDone : FastingSession :=
  { type := "16:8", startTime := 0, endTime := some 100, duration := 5
  , targetDuration := none, eatingWindowStart := none, eatingWindowEnd := none }

/-- The C4 counterexample aggregate. -/
def c4dDone : DailyHealthData := { zeroDaily with fastingSession := some c4fsDone }

/-- C4 counterexample: after the session of the aggregate has transitioned to
Completed, a subsequent `startFastingSession` for the same date does NOT
succeed — the session-row `create` hits the one-to-one unique constraint on
`dailyHealthDataId` and the call fails with the wrapped store error —
contradicting the claim that it succeeds and creates a fresh session. -/
theorem c4_counterexample :
    startFastingSession 7200000 (some c4dDone) "16:8" none none none =
      .error "Failed to start fasting session: unique constraint violated on dailyHealthDataId" := by
  simp [startFastingSession, getDailyHealthData, autoCompleteDaily, c4dDone, c4fsDone,
    zeroDaily, needsAutoComplete]

end Fitness.Health

namespace Fitness.Health

/-- The duration/endTime computation of `saveFastingSession`:
`duration = sessionData.duration || 0`; if no endTime was provided and
targetDuration is truthy, auto-complete when elapsed ≥ target (capping the
duration at the target) and otherwise use the raw elapsed hours; else cap a
provided duration exceeding a truthy target; else keep the provided
duration. -/
def fastingEndAndDuration (now startTime : ℚ)
    (endTime? duration? targetDuration? : Option ℚ) : Option ℚ × ℚ :=
  let dur0 := duration?.getD 0
  let t := targetDuration?.getD 0
  if endTime?.isNone && truthyQ targetDuration? then
    (if t ≤ elapsedHours now startTime then (some now, t)
     else (none, elapsedHours now startTime))
  else if truthyQ targetDuration? && t < dur0 then
    (endTime?, t)
  else
    (endTime?, dur0)

/-- Models `duration < 0.5 ? 1 : Math.round(duration)`: the integer duration
written to the session row. -/
def storedDuration (d : ℚ) : ℤ := if d < 1/2 then 1 else jsRound d

/-- The upsert payload of `saveFastingSession`. -/
structure FSInput where
  type : Option String
  startTime : Option ℚ
  endTime : Option ℚ
  duration : Option ℚ
  targetDuration : Option ℚ
  eatingWindowStart : Option ℚ
  eatingWindowEnd : Option ℚ
  deriving DecidableEq, Repr

/-- Source `saveFastingSession`: reject when `type` or `startTime` is missing (JS
truthiness); read or create the aggregate; compute endTime/duration via
`fastingEndAndDuration`; round the stored duration (minimum 1 for sessions
under half an hour) and the stored target; upsert the single session row of
the aggregate. -/
def saveFastingSession (now : ℚ) (db : Option DailyHealthData) (inp : FSInput) :
    Except String (FastingSession × DailyHealthData) :=
  -- the source rejects first (`!sessionData.type || !sessionData.startTime`)
  if truthyS inp.type && truthyQ inp.startTime then
    let dailyData := (getDailyHealthData now db).getD zeroDaily
    let startTime := inp.startTime.getD 0
    let pair := fastingEndAndDuration now startTime inp.endTime inp.duration inp.targetDuration
    let fs : FastingSession :=
      { type := inp.type.getD "", startTime := startTime, endTime := pair.1
      , duration := storedDuration pair.2
      , targetDuration :=
          if truthyQ inp.targetDuration then some (jsRound (inp.targetDuration.getD 0)) else none
      , eatingWindowStart := inp.eatingWindowStart, eatingWindowEnd := inp.eatingWindowEnd }
    .ok (fs, { dailyData with fastingSession := some fs })
  else
    .error "Missing required fields: type and startTime are required"

/-- The observable endTime/duration pair of a saved session. -/
def savedEndAndDuration (r : Except String (FastingSession × DailyHealthData)) :
    Option (Option ℚ × ℤ) :=
  match r with
  | .ok (fs, _) => some (fs.endTime, fs.duration)
  | .error _ => none

end Fitness.Health

namespace Fitness.Health

/-- C3 (amended): for every valid input (type and startTime present), the
endTime absent and targetDuration set (nonzero) cases behave as claimed —
auto-complete with the duration capped at the target when elapsed ≥ target,
raw elapsed hours otherwise; but when endTime and targetDuration are both
absent the duration is the PROVIDED duration (default 0), not the raw
elapsed hours; a provided duration exceeding a set target is capped; and the
stored integer duration is `storedDuration`: 1 whenever the computed duration
is under 0.5 hours, round-to-nearest otherwise. -/
theorem c3_save_fasting_duration_policy (now : ℚ) (db : Option DailyHealthData)
    (inp : FSInput) (hv : (truthyS inp.type && truthyQ inp.startTime) = true) :
    (∀ t : ℚ, inp.endTime = none → inp.targetDuration = some t → t ≠ 0 →
       t ≤ elapsedHours now (inp.startTime.getD 0) →
       savedEndAndDuration (saveFastingSession now db inp) =
         some (some now, storedDuration t)) ∧
    (∀ t : ℚ, inp.endTime = none → inp.targetDuration = some t → t ≠ 0 →
       elapsedHours now (inp.startTime.getD 0) < t →
       savedEndAndDuration (saveFastingSession now db inp) =
         some (none, storedDuration (elapsedHours now (inp.startTime.getD 0)))) ∧
    (inp.endTime = none → truthyQ inp.targetDuration = false →
       savedEndAndDuration (saveFastingSession now db inp) =
         some (none, storedDuration (inp.duration.getD 0))) ∧
    (∀ et t, inp.endTime = some et → inp.targetDuration = some t → t ≠ 0 →
       t < inp.duration.getD 0 →
       savedEndAndDuration (saveFastingSession now db inp) =
         some (some et, storedDuration t)) ∧
    (∀ et, inp.endTime = some et →
       ¬ (truthyQ inp.targetDuration = true ∧
            inp.targetDuration.getD 0 < inp.duration.getD 0) →
       savedEndAndDuration (saveFastingSession now db inp) =
         some (some et, storedDuration (inp.duration.getD 0))) := by
  refine ⟨?_, ?_, ?_, ?_, ?_⟩
  · intro t hend htgt ht hle
    simp only [saveFastingSession, hv]
    simp [savedEndAndDuration, fastingEndAndDuration, hend, htgt, truthyQ, ht, hle]
  · intro t hend htgt ht hlt
    simp only [saveFastingSession, hv]
    simp [savedEndAndDuration, fastingEndAndDuration, hend, htgt, truthyQ, ht,
      not_le.mpr hlt]
  · intro hend htgt
    simp only [saveFastingSession, hv]
    simp [savedEndAndDuration, fastingEndAndDuration, hend, htgt]
  · intro et t hend htgt ht hlt
    simp only [saveFastingSession, hv]
    simp [savedEndAndDuration, fastingEndAndDuration, hend, htgt, truthyQ, ht, hlt]
  · intro et hend hnot
    simp only [saveFastingSession, hv]
    rcases h : inp.targetDuration with _ | t
    · simp [savedEndAndDuration, fastingEndAndDuration, hend, h, truthyQ]
    · rcases eq_or_ne t 0 with rfl | ht
      · simp [savedEndAndDuration, fastingEndAndDuration, hend, h, truthyQ]
      · have hge : ¬ (t < inp.duration.getD 0) := by
          intro hlt
          exact hnot ⟨by simp [truthyQ, h, ht], by simp [h, hlt]⟩
        simp [savedEndAndDuration, fastingEndAndDuration, hend, h, truthyQ, ht, hge]

/-- The C3 witness input: valid, Active (no endTime), target 16 h, started
2.6 h before `now = 12960000` ms. -/
def c3inp : FSInput :=
  { type := some "16:8", startTime := some 3600000, endTime := none
  , duration := none, targetDuration := some 16
  , eatingWindowStart := none, eatingWindowEnd := none }

/-- C3 witness: with elapsed 2.6 h under a 16 h target, the session is saved
Active with stored duration `Math.round(2.6) = 3`. -/
theorem c3_witness :
    savedEndAndDuration (saveFastingSession 12960000 none c3inp) = some (none, 3) := by
  have h := (c3_save_fasting_duration_policy 12960000 none c3inp (by simp [truthyS, truthyQ, c3inp])).2.1
    16 rfl rfl (by norm_num) (by norm_num [elapsedHours, c3inp])
  rw [h]
  norm_num [storedDuration, jsRound, elapsedHours, c3inp]

/-- The C3 counterexample input: valid, no endTime, no targetDuration, no
provided duration, started 2.6 h before `now = 12960000` ms. -/
def c3inpNT : FSInput :=
  { type := some "16:8", startTime := some 3600000, endTime := none
  , duration := none, targetDuration := none
  , eatingWindowStart := none, eatingWindowEnd := none }

/-- C3 counterexample: with endTime and targetDuration both absent and
elapsed 2.6 h, the code stores duration 1 (the provided duration defaults to
0, which is under 0.5 h), while the claim — duration equals the raw elapsed
hours whenever endTime is absent, rounded to nearest — demands
`Math.round(2.6) = 3`. -/
theorem c3_counterexample :
    savedEndAndDuration (saveFastingSession 12960000 none c3inpNT) = some (none, 1) ∧
    jsRound (elapsedHours 12960000 3600000) = 3 := by
  constructor
  · simp [saveFastingSession, savedEndAndDuration, fastingEndAndDuration, c3inpNT,
      truthyS, truthyQ, storedDuration]
  · norm_num [jsRound, elapsedHours]

end Fitness.Health

namespace Fitness.Food

/-!
### Food catalog, basket, and basket-to-meal conversion
`food.service.ts` (`searchFoodItems`, `bulkImportFoodItems`, basket CRUD) and
`food.controller.ts` (`searchFoodItems`, `createMealFromBasket`, basket
handlers).  Catalog columns no claim observes (description, imageUrl,
sourceUrl, timestamps) are elided.
-/

/-- A `FoodItem` catalog row. -/
structure FoodItem where
  name : String
  calories : ℚ
  carbs : ℚ
  protein : ℚ
  fat : ℚ
  servingSize : ℚ
  servingUnit : String
  category : Option String
  source : String
  deriving DecidableEq, Repr

/-- A basket item as returned by `getBasket` (joined with its `FoodItem`). -/
structure BasketEntry where
  quantity : ℚ
  servingSize : ℚ
  foodItem : FoodItem
  deriving DecidableEq, Repr

/-- The meal draft returned by `createMealFromBasket` (calories rounded to an
integer, macros to one decimal). -/
structure MealDraft where
  name : String
  type : String
  calories : ℤ
  carbs : ℚ
  protein : ℚ
  fat : ℚ
  deriving DecidableEq, Repr

/-- The scale factor `(basketItem.quantity * basketItem.servingSize) / foodItem.servingSize`. -/
def scaleFactor (b : BasketEntry) : ℚ := b.quantity * b.servingSize / b.foodItem.servingSize

/-- The accumulated total of one nutrient over the basket:
`Σ nativeValue * scaleFactor`. -/
def basketTotal (f : FoodItem → ℚ) (basket : List BasketEntry) : ℚ :=
  (basket.map (fun b => f b.foodItem * scaleFactor b)).sum

/-- Models `Math.round(x * 10) / 10`: one-decimal rounding of the macro totals. -/
def round1 (q : ℚ) : ℚ := (jsRound (q * 10) : ℚ) / 10

/-- Meal-name composition: a single item keeps its name; otherwise the first
two names joined by `", "`, with `" + N more"` appended when more than two. -/
def mealNameOfBasket (basket : List BasketEntry) : String :=
  let names := basket.map (fun b => b.foodItem.name)
  if names.length = 1 then names.headD ""
  else
    String.intercalate ", " (names.take 2) ++
      (if names.length > 2 then " + " ++ toString (names.length - 2) ++ " more" else "")

/-- Source `createMealFromBasket`: 400 when `mealType` is missing; 400 when the
basket is empty (no state change); otherwise fold the basket into a meal
draft and clear the basket.  Returns the response together with the new
basket state. -/
def createMealFromBasket (mealType : Option String) (basket : List BasketEntry) :
    Except String MealDraft × List BasketEntry :=
  if ¬ truthyS mealType then (.error "mealType is required", basket)
  else if basket.length = 0 then (.error "Basket is empty", basket)
  else
    (.ok { name := mealNameOfBasket basket
         , type := mealType.getD ""
         , calories := jsRound (basketTotal FoodItem.calories basket)
         , carbs := round1 (basketTotal FoodItem.carbs basket)
         , protein := round1 (basketTotal FoodItem.protein basket)
         , fat := round1 (basketTotal FoodItem.fat basket) },
     [])

/-- C5: for a present mealType and a non-empty basket, `createMealFromBasket`
returns a draft whose totals are the claimed sums
`Σ nativeValue * (quantity * servingSize) / foodItem.servingSize` (calories
rounded to an integer, macros to one decimal as the endpoint returns them),
clears the basket, and re-invoking on the resulting state fails with the
empty-basket ValidationError; for an empty basket it fails with that
ValidationError and leaves the basket unchanged. -/
theorem c5_basket_to_meal (mealType : Option String) (basket : List BasketEntry)
    (hmt : truthyS mealType = true) :
    (basket ≠ [] →
       (createMealFromBasket mealType basket).2 = [] ∧
       (createMealFromBasket mealType basket).1 =
         .ok { name := mealNameOfBasket basket
             , type := mealType.getD ""
             , calories := jsRound (basketTotal FoodItem.calories basket)
             , carbs := round1 (basketTotal FoodItem.carbs basket)
             , protein := round1 (basketTotal FoodItem.protein basket)
             , fat := round1 (basketTotal FoodItem.fat basket) } ∧
       (createMealFromBasket mealType ((createMealFromBasket mealType basket).2)).1 =
         .error "Basket is empty") ∧
    ((createMealFromBasket mealType []).1 = .error "Basket is empty" ∧
     (createMealFromBasket mealType []).2 = []) := by
  constructor
  · intro hne
    have hlen : ¬ basket.length = 0 := by simpa using hne
    refine ⟨?_, ?_, ?_⟩ <;> simp [createMealFromBasket, hmt, hlen]
  · constructor <;> simp [createMealFromBasket, hmt]

/-- The two foods of the C5 witness basket. -/
def c5food1 : FoodItem :=
  { name := "Rice", calories := 100, carbs := 20, protein := 2, fat := 1
  , servingSize := 100, servingUnit := "g", category := none, source := "scraped" }

/-- The second food of the C5 witness basket (50 kcal per 100 g). -/
def c5food2 : FoodItem :=
  { name := "Dal", calories := 50, carbs := 8, protein := 4, fat := 1
  , servingSize := 100, servingUnit := "g", category := none, source := "scraped" }

/-- The C5 witness basket: 2 × 100 g of the 100-kcal food and 1 × 50 g of the
50-kcal food. -/
def c5basket : List BasketEntry :=
  [ { quantity := 2, servingSize := 100, foodItem := c5food1 }
  , { quantity := 1, servingSize := 50, foodItem := c5food2 } ]

/-- C5 witness: the example basket yields totalCalories 200 + 25 = 225, the
basket is cleared, and re-invoking fails with the empty-basket
ValidationError. -/
theorem c5_witness :
    ((createMealFromBasket (some "lunch") c5basket).1).map MealDraft.calories = .ok 225 ∧
    (createMealFromBasket (some "lunch") c5basket).2 = [] ∧
    (createMealFromBasket (some "lunch") ((createMealFromBasket (some "lunch") c5basket).2)).1 =
      .error "Basket is empty" := by
  obtain ⟨h1, h2⟩ := c5_basket_to_meal (some "lunch") c5basket (by simp [truthyS])
  obtain ⟨hclear, hok, hre⟩ := h1 (by simp [c5basket])
  refine ⟨?_, hclear, hre⟩
  rw [hok]
  have : basketTotal FoodItem.calories c5basket = 225 := by
    norm_num [basketTotal, scaleFactor, c5basket, c5food1, c5food2]
  simp [this, jsRound, Except.map]
  norm_num

end Fitness.Food

namespace Fitness.Food

/-- Prefix test on character lists (structural helper for substring
containment). -/
def startsWithCL : List Char → List Char → Bool
  | [], _ => true
  | _ :: _, [] => false
  | a :: as, b :: bs => a = b && startsWithCL as bs

/-- Containment of one character list in another. -/
def containsCL (needle : List Char) : List Char → Bool
  | [] => startsWithCL needle []
  | b :: rest => startsWithCL needle (b :: rest) || containsCL needle rest

/-- Models `message.includes(pattern)` (case-sensitive substring test). -/
def strContains (hay needle : String) : Bool := containsCL needle.toList hay.toList

/-- Prisma `name: \x7b contains, mode: insensitive \x7d`: case-insensitive
substring match. -/
def strContainsCI (hay needle : String) : Bool :=
  containsCL (needle.toList.map Char.toLower) (hay.toList.map Char.toLower)

/-- The `where.name` filter: only applied when `params.search` is truthy. -/
def nameMatches (search : Option String) (f : FoodItem) : Bool :=
  match search with
  | none => true
  | some s => if s = "" then true else strContainsCI f.name s

/-- The `where.category` filter: only applied when `params.category` is
truthy. -/
def categoryMatches (category : Option String) (f : FoodItem) : Bool :=
  match category with
  | none => true
  | some c => if c = "" then true else f.category = some c

/-- Prisma `take`: a non-negative count takes from the front, a negative
count takes from the end. -/
def prismaTake (l : List FoodItem) (t : ℤ) : List FoodItem :=
  if 0 ≤ t then l.take t.toNat else l.drop (l.length - (-t).toNat)

/-- The result shape of the catalog search. -/
structure SearchResult where
  items : List FoodItem
  total : ℕ
  page : ℤ
  limit : ℤ
  totalPages : ℤ
  deriving DecidableEq, Repr

/-- Source `searchFoodItems` (service): `page = params.page || 1`,
`limit = Math.min(params.limit || 20, 100)`, `skip = (page - 1) * limit`;
filter by name/category, paginate, and report
`totalPages = Math.ceil(total / limit)`.  The store rejects a negative
`skip`; result ordering (`orderBy name asc`) is elided — no claim observes
the order of the returned page.  -/
def searchFoodItemsService (db : List FoodItem) (search category : Option String)
    (page? limit? : Option ℤ) : Except String SearchResult :=
  let page := jsOrZ page? 1
  let limit := min (jsOrZ limit? 20) 100
  let skip := (page - 1) * limit
  let matching := db.filter (fun f => nameMatches search f && categoryMatches category f)
  let total := matching.length
  if skip < 0 then .error "skip must not be negative"
  else
    .ok { items := prismaTake (matching.drop skip.toNat) limit
        , total := total, page := page, limit := limit
        , totalPages := ⌈(total : ℚ) / (limit : ℚ)⌉ }

/-- Applying `prismaTake` with a non-negative count returns at most that many
items. -/
theorem prismaTake_length_le (l : List FoodItem) (t : ℤ) (ht : 0 ≤ t) :
    ((prismaTake l t).length : ℤ) ≤ t := by
  rw [prismaTake, if_pos ht]
  calc ((l.take t.toNat).length : ℤ) ≤ (t.toNat : ℤ) := by
        exact_mod_cast List.length_take_le _ _
    _ = t := by rw [Int.toNat_of_nonneg ht]

/-- C10 (amended: a requested limit of `0` is JS-falsy and falls back to the
default 20, so the effective page size is `min(limit, 100)` only for nonzero
requested limits): for requests whose page, when given, is at least 1 and
whose limit, when given, is non-negative, the search succeeds, the effective
page size is 20 when the limit is absent or zero and `min(limit, 100)`
otherwise, the page defaults to 1, at most `limit` items are returned,
`total` counts all matching rows, and `totalPages = ceil(total / limit)`. -/
theorem c10_pagination (db : List FoodItem) (search category : Option String)
    (page? limit? : Option ℤ)
    (hp : ∀ p, page? = some p → 1 ≤ p) (hl : ∀ l, limit? = some l → 0 ≤ l) :
    ∃ r, searchFoodItemsService db search category page? limit? = .ok r ∧
      r.limit = limit?.elim 20 (fun l => if l = 0 then 20 else min l 100) ∧
      r.page = page?.getD 1 ∧
      (r.items.length : ℤ) ≤ r.limit ∧
      r.total = (db.filter
        (fun f => nameMatches search f && categoryMatches category f)).length ∧
      r.totalPages = ⌈(r.total : ℚ) / (r.limit : ℚ)⌉ := by
  have hlim1 : min (jsOrZ limit? 20) 100 =
      limit?.elim 20 (fun l => if l = 0 then 20 else min l 100) := by
    rcases limit? with _ | l
    · norm_num [jsOrZ]
    · rcases eq_or_ne l 0 with rfl | hne
      · norm_num [jsOrZ]
      · simp [jsOrZ, hne]
  have hlim0 : 0 ≤ min (jsOrZ limit? 20) 100 := by
    rcases limit? with _ | l
    · norm_num [jsOrZ]
    · have h0 := hl l rfl
      rcases eq_or_ne l 0 with rfl | hne
      · norm_num [jsOrZ]
      · simp only [jsOrZ, if_neg hne]
        exact le_min h0 (by norm_num)
  have hpage1 : jsOrZ page? 1 = page?.getD 1 := by
    rcases page? with _ | p
    · rfl
    · have h1 := hp p rfl
      have hne : p ≠ 0 := by omega
      simp [jsOrZ, hne]
  have hpage0 : 1 ≤ jsOrZ page? 1 := by
    rcases page? with _ | p
    · norm_num [jsOrZ]
    · have h1 := hp p rfl
      have hne : p ≠ 0 := by omega
      simp only [jsOrZ, if_neg hne]
      exact h1
  have hskip : ¬ ((jsOrZ page? 1 - 1) * min (jsOrZ limit? 20) 100 < 0) := by
    push_neg
    exact mul_nonneg (by omega) hlim0
  have heq : searchFoodItemsService db search category page? limit? =
      .ok { items := prismaTake
              ((db.filter (fun f => nameMatches search f && categoryMatches category f)).drop
                ((jsOrZ page? 1 - 1) * min (jsOrZ limit? 20) 100).toNat)
              (min (jsOrZ limit? 20) 100)
          , total := (db.filter
              (fun f => nameMatches search f && categoryMatches category f)).length
          , page := jsOrZ page? 1
          , limit := min (jsOrZ limit? 20) 100
          , totalPages := ⌈((db.filter
                (fun f => nameMatches search f && categoryMatches category f)).length : ℚ) /
              ((min (jsOrZ limit? 20) 100 : ℤ) : ℚ)⌉ } := by
    simp only [searchFoodItemsService]
    rw [if_neg hskip]
  exact ⟨_, heq, hlim1, hpage1, prismaTake_length_le _ _ hlim0, rfl, rfl⟩

/-- A catalog row used by the C10 witness and counterexample. -/
def c10item : FoodItem :=
  { name := "Apple", calories := 52, carbs := 14, protein := 0, fat := 0
  , servingSize := 100, servingUnit := "g", category := none, source := "scraped" }

/-- A second catalog row for the C10 witness. -/
def c10item2 : FoodItem :=
  { name := "Banana", calories := 89, carbs := 23, protein := 1, fat := 0
  , servingSize := 100, servingUnit := "g", category := none, source := "scraped" }

/-- A third catalog row for the C10 witness. -/
def c10item3 : FoodItem :=
  { name := "Cherry", calories := 50, carbs := 12, protein := 1, fat := 0
  , servingSize := 100, servingUnit := "g", category := none, source := "scraped" }

/-- C10 witness: three matching rows with requested limit 2 yield effective
limit `min(2, 100) = 2`, default page 1, and at most 2 items. -/
theorem c10_witness :
    (searchFoodItemsService [c10item, c10item2, c10item3] none none none (some 2)).map
        (fun r => (r.limit, r.page, r.items.length ≤ 2)) = .ok (2, 1, True) := by
  obtain ⟨r, heq, hlim, hpage, hlen, htot, htp⟩ :=
    c10_pagination [c10item, c10item2, c10item3] none none none (some 2)
      (by intro p h; cases h) (by intro l h; injection h with h; omega)
  rw [heq]
  have hl2 : r.limit = 2 := by simpa using hlim
  have hp1 : r.page = 1 := hpage
  have : r.items.length ≤ 2 := by
    have := hlen
    rw [hl2] at this
    exact_mod_cast this
  simp [Except.map, hl2, hp1, this]

/-- C10 counterexample: with requested limit 0 the code falls back to the
default effective limit 20 (`params.limit || 20`) and returns the matching
item, while the claim's effective page size `min(0, 100) = 0` would require
returning no items and reporting limit 0. -/
theorem c10_counterexample :
    searchFoodItemsService [c10item] none none none (some 0) =
      .ok { items := [c10item], total := 1, page := 1, limit := 20, totalPages := 1 } ∧
    min (0 : ℤ) 100 = 0 := by
  constructor
  · rw [searchFoodItemsService]
    simp only [jsOrZ, nameMatches, categoryMatches]
    norm_num [prismaTake]
    rw [Int.ceil_eq_iff] <;> norm_num
  · norm_num

end Fitness.Food

namespace Fitness.Food

/-- An item produced by the scraper / accepted by `bulkImportFoodItems`. -/
structure ImportItem where
  name : String
  calories : ℚ
  carbs : ℚ
  protein : ℚ
  fat : ℚ
  servingSize : Option ℚ
  servingUnit : Option String
  category : Option String
  source : Option String
  deriving DecidableEq, Repr

/-- Update the first list element satisfying the predicate (Prisma `update`
by the id found with `findFirst`). -/
def updateFirst (p : FoodItem → Bool) (f : FoodItem → FoodItem) :
    List FoodItem → List FoodItem
  | [] => []
  | x :: xs => if p x then f x :: xs else x :: updateFirst p f xs

/-- JS `x || d` merging an optional incoming string with an optional stored
one (`item.category || existing.category`). -/
def jsOrOptS (x : Option String) (d : Option String) : Option String :=
  match x with
  | none => d
  | some s => if s = "" then d else some s

/-- One step of `bulkImportFoodItems`: look for a row with the same
`(name, source)` (source defaulting to `"scraped"`); update it in place when
found (nutrition always overwritten, category merged with `||`), insert a new
row otherwise (`servingSize || 100`, `servingUnit || "g"`). -/
def importOne (db : List FoodItem) (item : ImportItem) : List FoodItem :=
  let src := jsOrS item.source "scraped"
  let upd : FoodItem → FoodItem := fun f =>
    { f with calories := item.calories, carbs := item.carbs, protein := item.protein, fat := item.fat, category := jsOrOptS item.category f.category }
  match db.find? (fun f => f.name = item.name && f.source = src) with
  | some _ =>
    updateFirst (fun f => f.name = item.name && f.source = src) upd db
  | none =>
    db ++ [{ name := item.name, calories := item.calories, carbs := item.carbs
           , protein := item.protein, fat := item.fat
           , servingSize := jsOrQ item.servingSize 100
           , servingUnit := jsOrS item.servingUnit "g"
           , category := item.category, source := src }]

/-- Source `bulkImportFoodItems`: upsert each incoming item by `(name, source)`. -/
def bulkImportFoodItems (db : List FoodItem) (items : List ImportItem) : List FoodItem :=
  items.foldl importOne db

/-- A controller response of the catalog-search endpoint. -/
inductive CtrlResult where
  | ok (r : SearchResult)
  | err (status : ℕ)
  deriving DecidableEq, Repr

/-- The controller guard
`search && typeof search === "string" && search.trim().length > 0`.
`search.trim().length > 0` holds exactly when the string has a
non-whitespace character, which is how the condition is modelled (the
byte-position-based `String.trim` of the core library is not useful for
reasoning). -/
def searchTrimNonempty (search : Option String) : Bool :=
  match search with
  | none => false
  | some s => decide (s ≠ "") && s.toList.any (fun c => !c.isWhitespace)

/-- Source `searchFoodItems` (controller): search the local catalog first; when that
yields nothing and a non-empty text query was given, invoke the external
scrape (its outcome is the `scrapeResult` argument), import whatever it
returned, and re-run the local search; a scrape failure is caught, logged,
and the (empty) local result is returned.  The third component records
whether the scrape was invoked. -/
def searchFoodItemsCtrl (db : List FoodItem) (search category : Option String)
    (page? limit? : Option ℤ) (scrapeResult : Except String (List ImportItem)) :
    CtrlResult × List FoodItem × Bool :=
  match searchFoodItemsService db search category page? limit? with
  | .error _ => (.err 500, db, false)
  | .ok r1 =>
    if r1.items.length = 0 ∧ searchTrimNonempty search = true then
      match scrapeResult with
      | .error _ => (.ok r1, db, true)
      | .ok scraped =>
        if 0 < scraped.length then
          match searchFoodItemsService (bulkImportFoodItems db scraped)
              search category page? limit? with
          | .ok r2 => (.ok r2, bulkImportFoodItems db scraped, true)
          | .error _ => (.err 500, bulkImportFoodItems db scraped, true)
        else (.ok r1, db, true)
    else (.ok r1, db, false)

/-- C7: the local catalog is consulted first and the scrape is invoked only
when the local result is empty and a non-empty text query was given; and when
the scrape fails, the failure is swallowed — the controller returns the
(empty) local result and the catalog is left unchanged. -/
theorem c7_cache_on_miss (db : List FoodItem) (search category : Option String)
    (page? limit? : Option ℤ) (scrapeResult : Except String (List ImportItem)) :
    ((searchFoodItemsCtrl db search category page? limit? scrapeResult).2.2 = true →
       searchTrimNonempty search = true ∧
       ∃ r1, searchFoodItemsService db search category page? limit? = .ok r1 ∧
         r1.items = []) ∧
    (∀ msg r1, scrapeResult = .error msg →
       searchFoodItemsService db search category page? limit? = .ok r1 →
       (searchFoodItemsCtrl db search category page? limit? scrapeResult).1 = .ok r1 ∧
       (searchFoodItemsCtrl db search category page? limit? scrapeResult).2.1 = db) := by
  constructor
  · intro hinv
    rcases hsvc : searchFoodItemsService db search category page? limit? with msg | r1
    · rw [searchFoodItemsCtrl] at hinv
      simp [hsvc] at hinv
    · rw [searchFoodItemsCtrl] at hinv
      simp only [hsvc] at hinv
      by_cases hcond : r1.items.length = 0 ∧ searchTrimNonempty search = true
      · exact ⟨hcond.2, r1, rfl, List.length_eq_zero.mp hcond.1⟩
      · rw [if_neg hcond] at hinv
        simp at hinv
  · intro msg r1 hscrape hsvc
    subst hscrape
    rw [searchFoodItemsCtrl]
    simp only [hsvc]
    by_cases hcond : r1.items.length = 0 ∧ searchTrimNonempty search = true
    · rw [if_pos hcond]
      exact ⟨rfl, rfl⟩
    · rw [if_neg hcond]
      exact ⟨rfl, rfl⟩

/-- C7 witness: an empty catalog with query `"dal"` invokes the scrape; the
scrape fails; the controller returns the empty local result with the catalog
unchanged. -/
theorem c7_witness :
    (searchFoodItemsCtrl [] (some "dal") none none none (.error "scrape timeout")).1 =
      .ok { items := [], total := 0, page := 1, limit := 20, totalPages := 0 } ∧
    (searchFoodItemsCtrl [] (some "dal") none none none (.error "scrape timeout")).2.1 = [] ∧
    (searchFoodItemsCtrl [] (some "dal") none none none (.error "scrape timeout")).2.2 = true := by
  have hsvc : searchFoodItemsService [] (some "dal") none none none =
      .ok { items := [], total := 0, page := 1, limit := 20, totalPages := 0 } := by
    rw [searchFoodItemsService]
    norm_num [jsOrZ, prismaTake]
  have h := (c7_cache_on_miss [] (some "dal") none none none (.error "scrape timeout")).2
    "scrape timeout" _ rfl hsvc
  refine ⟨h.1, h.2, ?_⟩
  rw [searchFoodItemsCtrl]
  simp only [hsvc]
  rw [if_pos ⟨rfl, by decide⟩]

end Fitness.Food

namespace Fitness.Food

/-- A `BasketItem` row. -/
structure BasketRow where
  id : ℕ
  userId : String
  foodItemId : ℕ
  quantity : ℚ
  servingSize : ℚ
  deriving DecidableEq, Repr

/-- Source `updateBasketItem` (service): builds `\x7b quantity \x7d` plus
`servingSize` when provided, and runs a Prisma `update` keyed only on the
basket-item id.  Mirroring the source exactly: the `userId` argument is
accepted but never consulted, so any existing row — whoever owns it — is
updated; a missing row makes the store throw (Prisma P2025). -/
def updateBasketItem (rows : List BasketRow) (userId : String) (basketItemId : ℕ)
    (quantity : ℚ) (servingSize? : Option ℚ) : Except String (List BasketRow) :=
  match rows.find? (fun r => r.id = basketItemId) with
  | none => .error "Record to update not found."
  | some _ =>
    .ok (rows.map fun r =>
      if r.id = basketItemId then
        { r with quantity := quantity, servingSize := servingSize?.getD r.servingSize }
      else r)

/-- Source `removeFromBasket` (service): look the row up; throw when it is absent or
owned by another user (`!item || item.userId !== userId`); delete it
otherwise. -/
def removeFromBasket (rows : List BasketRow) (userId : String) (basketItemId : ℕ) :
    Except String (List BasketRow) :=
  match rows.find? (fun r => r.id = basketItemId) with
  | none => .error "Basket item not found or access denied"
  | some item =>
    if item.userId ≠ userId then .error "Basket item not found or access denied"
    else .ok (rows.filter (fun r => r.id ≠ basketItemId))

/-- A basket-endpoint controller response (success, or failure with an HTTP
status). -/
inductive BasketResp where
  | success
  | failure (status : ℕ)
  deriving DecidableEq, Repr

/-- Source `updateBasketItem` (controller): 400 when `quantity` is missing; every
service error is mapped to 500 — this handler has no message-based 404
mapping.  Returns the response together with the new basket table. -/
def updateBasketItemCtrl (rows : List BasketRow) (userId : String) (basketItemId : ℕ)
    (quantity? : Option ℚ) (servingSize? : Option ℚ) : BasketResp × List BasketRow :=
  match quantity? with
  | none => (.failure 400, rows)
  | some q =>
    match updateBasketItem rows userId basketItemId q servingSize? with
    | .ok rows2 => (.success, rows2)
    | .error _ => (.failure 500, rows)

/-- Source `removeFromBasket` (controller): an error whose message includes
`"not found"` is mapped to 404, anything else to 500. -/
def removeFromBasketCtrl (rows : List BasketRow) (userId : String) (basketItemId : ℕ) :
    BasketResp × List BasketRow :=
  match removeFromBasket rows userId basketItemId with
  | .ok rows2 => (.success, rows2)
  | .error msg =>
    (if strContains msg "not found" then .failure 404 else .failure 500, rows)

/-- The foreign-owned basket row of the C8 evidence: it belongs to `"bob"`. -/
def c8row : BasketRow :=
  { id := 1, userId := "bob", foodItemId := 7, quantity := 1, servingSize := 100 }

/-- C8: the claim — basket update and removal fail with NotFound (404) and
leave the row unchanged whenever the referenced item is missing or foreign —
is violated by `updateBasketItem`: the service ignores its `userId` argument,
so caller `"alice"` updating the row owned by `"bob"` SUCCEEDS (200) and
changes the foreign row; and a missing id is surfaced as 500, not 404,
because this controller has no message-based 404 mapping.  (`removeFromBasket`
does behave as claimed, shown last.) -/
theorem c8_update_basket_ownership_not_enforced :
    updateBasketItemCtrl [c8row] "alice" 1 (some 5) none =
      (.success, [{ c8row with quantity := 5 }]) ∧
    updateBasketItemCtrl [] "alice" 1 (some 5) none = (.failure 500, []) ∧
    removeFromBasketCtrl [c8row] "alice" 1 = (.failure 404, [c8row]) := by
  refine ⟨?_, ?_, ?_⟩
  · simp [updateBasketItemCtrl, updateBasketItem, c8row, List.find?]
  · simp [updateBasketItemCtrl, updateBasketItem, List.find?]
  · have : strContains "Basket item not found or access denied" "not found" = true := by decide
    simp [removeFromBasketCtrl, removeFromBasket, c8row, List.find?, this]

end Fitness.Food

namespace Fitness.Feed

/-!
### Feed likes
`feed.service.ts` `toggleLike`: visibility-gated lookup, then delete-like +
decrement or create-like + increment inside one transaction.
-/

/-- The state of one post as seen by one fixed user: whether the
visibility/friend filter lets the user access it, the `likesCount` counter,
and whether a `(postId, userId)` like row exists for this user. -/
structure PostState where
  accessible : Bool
  likesCount : ℤ
  likedByUser : Bool
  deriving DecidableEq, Repr

/-- Source `toggleLike`: 404 when the post is not accessible; if the like row
exists, delete it and decrement `likesCount`, returning `false`; otherwise
create it and increment, returning `true`. -/
def toggleLike (p : PostState) : Except String (Bool × PostState) :=
  if ¬ p.accessible then .error "Post not found"
  else if p.likedByUser then
    .ok (false, { p with likedByUser := false, likesCount := p.likesCount - 1 })
  else
    .ok (true, { p with likedByUser := true, likesCount := p.likesCount + 1 })

/-- Runs `n` consecutive `toggleLike` calls by the same user on the same post,
collecting the returned flags in call order (a failed call changes
nothing). -/
def toggleSeq : ℕ → PostState → List Bool × PostState
  | 0, p => ([], p)
  | n + 1, p =>
    let rs := toggleSeq n p
    match toggleLike rs.2 with
    | .ok (b, p2) => (rs.1 ++ [b], p2)
    | .error _ => rs

/-- A fresh accessible post: no likes yet, not liked by the user. -/
def freshPost : PostState := { accessible := true, likesCount := 0, likedByUser := false }

/-- Closed form of `toggleSeq` from a fresh accessible post: the flags
alternate starting with `true`, and the state tracks the parity. -/
theorem toggleSeq_fresh (n : ℕ) :
    toggleSeq n freshPost =
      ((List.range n).map (fun i => decide (i % 2 = 0)),
       { accessible := true, likesCount := ((n % 2 : ℕ) : ℤ), likedByUser := n % 2 = 1 }) := by
  induction n with
  | zero => simp [toggleSeq, freshPost]
  | succ n ih =>
    rw [toggleSeq, ih]
    rcases Nat.even_or_odd n with he | ho
    · have h0 : n % 2 = 0 := Nat.even_iff.mp he
      have h1 : (n + 1) % 2 = 1 := by omega
      simp [toggleLike, h0, h1, List.range_succ]
    · have h0 : n % 2 = 1 := Nat.odd_iff.mp ho
      have h1 : (n + 1) % 2 = 0 := by omega
      simp [toggleLike, h0, h1, List.range_succ]

/-- Counting the alternating flag list: `#true - #false = n % 2`. -/
theorem alt_count (n : ℕ) :
    (((List.range n).map (fun i => decide (i % 2 = 0))).count true : ℤ) -
      (((List.range n).map (fun i => decide (i % 2 = 0))).count false : ℤ) =
      ((n % 2 : ℕ) : ℤ) := by
  induction n with
  | zero => simp
  | succ n ih =>
    rcases Nat.even_or_odd n with he | ho
    · have h0 : n % 2 = 0 := Nat.even_iff.mp he
      have h1 : (n + 1) % 2 = 1 := by omega
      rw [List.range_succ]
      simp only [h0] at ih
      simp [h0, h1, List.count_append]
      omega
    · have h0 : n % 2 = 1 := Nat.odd_iff.mp ho
      have h1 : (n + 1) % 2 = 0 := by omega
      rw [List.range_succ]
      simp only [h0] at ih
      simp [h0, h1, List.count_append]
      omega

/-- C9: over any sequence of `toggleLike` calls by one user on one fresh
accessible post, the returned flags alternate true/false starting with true
(the i-th flag is `true` exactly for even i), and after the calls the post's
`likesCount` equals the number of `true` results minus the number of `false`
results and is never negative. -/
theorem c9_toggle_like_alternates (n i : ℕ)
    (h : i < (toggleSeq n freshPost).1.length) :
    (toggleSeq n freshPost).1.get ⟨i, h⟩ = decide (i % 2 = 0) ∧
    ((toggleSeq n freshPost).2).likesCount =
      ((toggleSeq n freshPost).1.count true : ℤ) -
        ((toggleSeq n freshPost).1.count false : ℤ) ∧
    0 ≤ ((toggleSeq n freshPost).2).likesCount := by
  have hseq := toggleSeq_fresh n
  refine ⟨?_, ?_, ?_⟩
  · rw [List.get_eq_getElem]
    simp only [hseq]
    rw [List.getElem_map, List.getElem_range]
  · rw [hseq, alt_count]
  · rw [hseq]
    positivity

/-- C9 witness: three toggles on a fresh post return `[true, false, true]`
(the flag at index 2 is `true`), and the final `likesCount` is
`2 - 1 = 1 ≥ 0`. -/
theorem c9_witness :
    2 < (toggleSeq 3 freshPost).1.length ∧
    ((toggleSeq 3 freshPost).1.get
        ⟨2, by rw [toggleSeq_fresh]; simp⟩ = decide (2 % 2 = 0) ∧
      ((toggleSeq 3 freshPost).2).likesCount =
        ((toggleSeq 3 freshPost).1.count true : ℤ) -
          ((toggleSeq 3 freshPost).1.count false : ℤ) ∧
      0 ≤ ((toggleSeq 3 freshPost).2).likesCount) :=
  ⟨by rw [toggleSeq_fresh]; simp,
   c9_toggle_like_alternates 3 2 (by rw [toggleSeq_fresh]; simp)⟩

end Fitness.Feed

namespace Fitness.DailyStore

/-!
### saveDailyHealthData and duplicate self-healing
`health.service.ts` `saveDailyHealthData`: an upsert on the unique
`(userId, date)` key; on a caught unique-constraint violation (`P2002`) it
retries as an update of the existing row, and — when the unique lookup
misses while a scan still finds rows — it keeps the oldest-created row,
deletes the rest, and applies the write to the survivor.

The store for one `(userId, date)` key is the list of its rows.  The unique
lookup (`findUnique`) is well-defined exactly when the key is actually
unique, so it is modelled as returning the row only when exactly one exists;
with two or more rows (historical corruption of the unique index) the upsert
cannot resolve the key and raises the violation, and the unique lookup
misses — the situation the recovery branch of the source handles.  The
`raceViolation` flag models a `P2002` raised by a concurrent insert even
though the table looks clean. -/

/-- A `dailyHealthData` row for one `(userId, date)` key. -/
structure DailyRow where
  id : ℕ
  createdAt : ℚ
  caloriesConsumed : ℚ
  caloriesBurned : ℚ
  steps : ℚ
  waterIntake : ℚ
  activeEnergyBurned : Option ℚ
  dietaryEnergyConsumed : Option ℚ
  heartRate : Option ℚ
  restingHeartRate : Option ℚ
  deriving DecidableEq, Repr

/-- The request body of `saveDailyHealthData`: the four running totals
default to 0 when absent; the optional vitals pass through. -/
structure SaveInput where
  caloriesConsumed : Option ℚ
  caloriesBurned : Option ℚ
  steps : Option ℚ
  waterIntake : Option ℚ
  activeEnergyBurned : Option ℚ
  dietaryEnergyConsumed : Option ℚ
  heartRate : Option ℚ
  restingHeartRate : Option ℚ
  deriving DecidableEq, Repr

/-- Apply the incoming write to a row: the destructuring defaults make the
four totals always-written numbers, while an absent optional field leaves the
column untouched (Prisma skips `undefined`). -/
def writeInput (inp : SaveInput) (r : DailyRow) : DailyRow :=
  { r with
    caloriesConsumed := inp.caloriesConsumed.getD 0
  , caloriesBurned := inp.caloriesBurned.getD 0
  , steps := inp.steps.getD 0
  , waterIntake := inp.waterIntake.getD 0
  , activeEnergyBurned := inp.activeEnergyBurned.or r.activeEnergyBurned
  , dietaryEnergyConsumed := inp.dietaryEnergyConsumed.or r.dietaryEnergyConsumed
  , heartRate := inp.heartRate.or r.heartRate
  , restingHeartRate := inp.restingHeartRate.or r.restingHeartRate }

/-- The unique-key lookup: defined only when the key is actually unique. -/
def findUniqueDaily (rows : List DailyRow) : Option DailyRow :=
  match rows with
  | [r] => some r
  | _ => none

/-- Models `findMany(...orderBy createdAt asc)`. -/
def sortByCreatedAt (rows : List DailyRow) : List DailyRow :=
  List.insertionSort (fun a b => a.createdAt ≤ b.createdAt) rows

/-- Source `saveDailyHealthData` for one `(userId, date)` key: upsert; on a unique
violation, update the unique row if the lookup finds it, else scan for
duplicates ordered by `createdAt`, keep the first (oldest), delete the rest,
and update the survivor; rethrow when even the scan finds nothing. -/
def saveDailyHealthData (now : ℚ) (newId : ℕ) (rows : List DailyRow)
    (raceViolation : Bool) (inp : SaveInput) : Except String (List DailyRow) :=
  if ¬ raceViolation ∧ rows.length ≤ 1 then
    match rows with
    | [] => .ok [writeInput inp
        { id := newId, createdAt := now, caloriesConsumed := 0, caloriesBurned := 0
        , steps := 0, waterIntake := 0, activeEnergyBurned := none
        , dietaryEnergyConsumed := none, heartRate := none, restingHeartRate := none }]
    | r :: _ => .ok [writeInput inp r]
  else
    match findUniqueDaily rows with
    | some r => .ok [writeInput inp r]
    | none =>
      match sortByCreatedAt rows with
      | [] => .error "Unique constraint failed"
      | keep :: _rest => .ok [writeInput inp keep]

/-- C6: when the upsert hits a uniqueness violation on `(userId, date)` and
more than one row exists for that key, `saveDailyHealthData` keeps a row with
the oldest `createdAt`, deletes all the others, applies the incoming write to
the surviving row, and surfaces no error. -/
theorem c6_duplicate_self_healing (now : ℚ) (newId : ℕ) (rows : List DailyRow)
    (raceViolation : Bool) (inp : SaveInput) (h2 : 2 ≤ rows.length) :
    ∃ keep, keep ∈ rows ∧ (∀ r ∈ rows, keep.createdAt ≤ r.createdAt) ∧
      saveDailyHealthData now newId rows raceViolation inp = .ok [writeInput inp keep] := by
  haveI htot : IsTotal DailyRow (fun a b => a.createdAt ≤ b.createdAt) :=
    ⟨fun a b => le_total a.createdAt b.createdAt⟩
  haveI htrans : IsTrans DailyRow (fun a b => a.createdAt ≤ b.createdAt) :=
    ⟨fun _ _ _ hab hbc => le_trans hab hbc⟩
  have hperm : List.Perm (sortByCreatedAt rows) rows := List.perm_insertionSort _ rows
  have hsorted : List.Sorted (fun a b => a.createdAt ≤ b.createdAt) (sortByCreatedAt rows) :=
    List.sorted_insertionSort _ rows
  have hne : sortByCreatedAt rows ≠ [] := by
    intro hnil
    have := hperm.length_eq
    rw [hnil] at this
    simp at this
    omega
  rcases hsort : sortByCreatedAt rows with _ | ⟨keep, rest⟩
  · exact absurd hsort hne
  have hkeepmem : keep ∈ rows := hperm.mem_iff.mp (by rw [hsort]; exact List.mem_cons_self _ _)
  have hmin : ∀ r ∈ rows, keep.createdAt ≤ r.createdAt := by
    intro r hr
    have hr2 : r ∈ sortByCreatedAt rows := hperm.mem_iff.mpr hr
    rw [hsort] at hr2
    rcases List.mem_cons.mp hr2 with rfl | hr3
    · exact le_refl _
    · rw [hsort] at hsorted
      exact (List.sorted_cons.mp hsorted).1 r hr3
  refine ⟨keep, hkeepmem, hmin, ?_⟩
  have hfu : findUniqueDaily rows = none := by
    rcases rows with _ | ⟨a, _ | ⟨b, t⟩⟩
    · simp at h2
    · simp at h2
    · rfl
  have hcond : ¬ (¬ raceViolation ∧ rows.length ≤ 1) := by
    intro hc
    omega
  rw [saveDailyHealthData.eq_def, if_neg hcond, hfu, hsort]

/-- The newer duplicate row of the C6 witness. -/
def c6rowNew : DailyRow :=
  { id := 2, createdAt := 500, caloriesConsumed := 900, caloriesBurned := 100
  , steps := 4, waterIntake := 1, activeEnergyBurned := none
  , dietaryEnergyConsumed := none, heartRate := none, restingHeartRate := none }

/-- The older duplicate row of the C6 witness. -/
def c6rowOld : DailyRow :=
  { id := 1, createdAt := 100, caloriesConsumed := 800, caloriesBurned := 50
  , steps := 3, waterIntake := 2, activeEnergyBurned := none
  , dietaryEnergyConsumed := none, heartRate := none, restingHeartRate := none }

/-- The incoming write of the C6 witness. -/
def c6inp : SaveInput :=
  { caloriesConsumed := some 1200, caloriesBurned := some 300, steps := some 10
  , waterIntake := some 5, activeEnergyBurned := none, dietaryEnergyConsumed := none
  , heartRate := none, restingHeartRate := none }

/-- C6 witness: two duplicate rows (ids 2 and 1, created at 500 and 100)
collapse to a single surviving row with the oldest `createdAt`, carrying the
incoming totals, and no error is surfaced. -/
theorem c6_witness :
    2 ≤ ([c6rowNew, c6rowOld] : List DailyRow).length ∧
    ∃ keep, keep ∈ [c6rowNew, c6rowOld] ∧
      (∀ r ∈ [c6rowNew, c6rowOld], keep.createdAt ≤ r.createdAt) ∧
      saveDailyHealthData 1000 9 [c6rowNew, c6rowOld] false c6inp =
        .ok [writeInput c6inp keep] :=
  ⟨by simp,
   c6_duplicate_self_healing 1000 9 [c6rowNew, c6rowOld] false c6inp (by simp)⟩

end Fitness.DailyStore
